import Mathlib

/-!
Shallow embedding of `src/yotagrabber/vehicles.py` (the crawl controller of the
yotagrabber repository): query rendering and its `functools.cache` memoization,
the `query_toyota` response classification, the WAF-bypass refresh check, and
the `get_all_pages` pagination/deduplication loop, together with the
`update_vehicles` configuration guard.
-/

namespace Yotagrabber

/-! ### Query templates (`get_vehicles_query`, vehicles.py lines 24-43)

Modelled from the spec: the GraphQL template file `graphql/vehicles.graphql` is
not part of `src/`; the spec describes it as "a template document with named
placeholders for anchor code, target identifier, distance value, correlation
identifier, and page number".  A template is therefore embedded as a sequence
of chunks, each either literal text or one of the five named placeholders
(`ZIPCODE`, `MODELCODE`, `DISTANCEMILES`, `LEADIDUUID`, `PAGENUMBER`), and
Python `str.replace(placeholder, value)` becomes a map over the chunks. -/
inductive Chunk
  | lit (s : String)
  | zipcode
  | modelcode
  | distancemiles
  | leadiduuid
  | pagenumber
deriving DecidableEq, Repr

/-- `query.replace(p, s)` at chunk level: every occurrence of placeholder `p`
becomes the literal text `s`; all other chunks are unchanged. -/
def replaceChunk (q : List Chunk) (p : Chunk) (s : String) : List Chunk :=
  q.map fun c => if c = p then .lit s else c

/-- The `zip_codes` dict of `get_vehicles_query` (vehicles.py lines 30-34). -/
def zip_codes : List (String × String) :=
  [("west", "84101"), ("central", "73007"), ("east", "27608")]

/-- Python exceptions that can escape the modelled functions. -/
inductive PyError
  | keyError
  | typeError
deriving DecidableEq, Repr

/-- Body of `get_vehicles_query` (vehicles.py lines 24-43), the code run on a
cache miss.  `model` is the module-level `MODEL = os.environ.get("MODEL")`
(absent environment variable gives `none`, and `query.replace("MODELCODE",
None)` raises `TypeError`); `dist` is the `randbelow(1000)` draw and `lead`
the `str(uuid.uuid4())` value, both freshly drawn for this call;
`zip_codes[zone]` raises `KeyError` for an unknown zone. -/
def get_vehicles_query_body (template : List Chunk) (model : Option String)
    (dist : Nat) (lead : String) (zone : String) : Except PyError (List Chunk) :=
  match zip_codes.lookup zone with
  | none => .error .keyError
  | some zip =>
    match model with
    | none => .error .typeError
    | some m =>
      .ok (replaceChunk (replaceChunk (replaceChunk (replaceChunk template
        .zipcode zip) .modelcode m) .distancemiles (toString (5823 + dist)))
        .leadiduuid lead)

/-- The `@cache` decorator on `get_vehicles_query` (vehicles.py line 24):
`functools.cache` keyed on the `zone` argument.  A hit returns the stored
rendered text without re-running the body (so `dist`/`lead`, the randomness a
fresh call would draw, are ignored); a successful miss stores the result;
exceptions are not cached. -/
def get_vehicles_query_cached (cache : List (String × List Chunk))
    (template : List Chunk) (model : Option String) (dist : Nat) (lead : String)
    (zone : String) : Except PyError (List Chunk) × List (String × List Chunk) :=
  match cache.lookup zone with
  | some q => (.ok q, cache)
  | none =>
    match get_vehicles_query_body template model dist lead zone with
    | .error e => (.error e, cache)
    | .ok q => (.ok q, (zone, q) :: cache)

/-- The per-page substitution at the top of `query_toyota` (vehicles.py line
55): `query = query.replace("PAGENUMBER", str(page_number))`.  Pure: it
produces a new text and leaves its argument untouched (Python strings are
immutable; the local rebinding does not affect the cached template). -/
def withPage (page_number : Nat) (query : List Chunk) : List Chunk :=
  replaceChunk query .pagenumber (toString page_number)

/-! ### Response classification (`query_toyota`, vehicles.py lines 51-78) -/

/-- Minimal model of a decoded Python JSON value, as produced by
`resp.json()`: null, number, string, list, or dict. -/
inductive PyVal
  | vnull
  | vint (n : Int)
  | vstr (s : String)
  | vlist (xs : List PyVal)
  | vdict (fields : List (String × PyVal))

/-- Whether a value is the given string (Python `==` against a str). -/
def pyIsStr (v : PyVal) (s : String) : Bool :=
  match v with
  | .vstr t => t == s
  | _ => false

/-- Python truthiness (`if not result`): None, 0, "", [], {} are falsy. -/
def truthy : PyVal → Bool
  | .vnull => false
  | .vint n => n != 0
  | .vstr s => s != ""
  | .vlist xs => !xs.isEmpty
  | .vdict fs => !fs.isEmpty

/-- Python `value[key]` for a string key: dict lookup (`KeyError` when the key
is absent); subscripting any non-dict value with a string raises `TypeError`. -/
def pySubscript (v : PyVal) (key : String) : Except PyError PyVal :=
  match v with
  | .vdict fields =>
    match fields.lookup key with
    | some w => .ok w
    | none => .error .keyError
  | _ => .error .typeError

/-- Bool substring test used by `key in someString`. -/
def listContainsSub (needle hay : List Char) : Bool :=
  (List.range (hay.length + 1)).any fun i => needle.isPrefixOf (hay.drop i)

/-- Python `key in value` for a string key: dict key membership, list element
membership, substring for strings; `TypeError` otherwise. -/
def pyContains (v : PyVal) (key : String) : Except PyError Bool :=
  match v with
  | .vdict fields => .ok (fields.lookup key).isSome
  | .vlist xs => .ok (xs.any (pyIsStr · key))
  | .vstr t => .ok (listContainsSub key.toList t.toList)
  | _ => .error .typeError

/-- An upstream response body after transport success: either `resp.json()`
raises `requests.exceptions.JSONDecodeError`, or it decodes to a value. -/
inductive RespBody
  | undecodable
  | decoded (v : PyVal)

/-- The classification part of `query_toyota` (vehicles.py lines 60-78).  The
`try` block wraps `resp.json()["data"]["locateVehiclesByZip"]` but its
`except` clause catches only `JSONDecodeError`, so a `KeyError`/`TypeError`
raised by either subscript propagates to the caller.  Afterwards
`if not result or "vehicleSummary" not in result: return None` (the `or`
short-circuits, so the membership test runs only on truthy values);
otherwise the result dict is returned. -/
def query_toyota (body : RespBody) : Except PyError (Option PyVal) :=
  match body with
  | .undecodable => .ok none
  | .decoded v =>
    match pySubscript v "data" with
    | .error e => .error e
    | .ok d =>
      match pySubscript d "locateVehiclesByZip" with
      | .error e => .error e
      | .ok result =>
        if !truthy result then .ok none
        else
          match pyContains result "vehicleSummary" with
          | .error e => .error e
          | .ok b => if !b then .ok none else .ok (some result)

/-! ### The crawl loop (`get_all_pages`, vehicles.py lines 81-147) -/

/-- A raw vehicle record: its `vin` column plus the rest of the row (all other
columns, abstracted as one opaque payload, which is all the dedup logic ever
distinguishes). -/
structure Item where
  vin : String
  payload : String
deriving DecidableEq, Repr

/-- `df.drop_duplicates(subset=["vin"])` (line 132) keeps the first row of
each vin, in order; `seen` accumulates the vins already kept. -/
def drop_duplicates_go (seen : List String) : List Item → List Item
  | [] => []
  | x :: xs =>
    if x.vin ∈ seen then drop_duplicates_go seen xs
    else x :: drop_duplicates_go (x.vin :: seen) xs

/-- `df.drop_duplicates(subset=["vin"])` on a whole dataframe-as-list. -/
def drop_duplicates_vin (df : List Item) : List Item :=
  drop_duplicates_go [] df

/-- One zone's contribution to a page (lines 116-129): `query_toyota` returns
`None` or a dict whose `"vehicleSummary"` holds the item rows; the fetch is
abstracted as an oracle from zone and page number to that outcome (the
rendered query text and WAF headers do not vary the oracle).  A `None`
result contributes nothing. -/
def zoneItems (fetch : String → Nat → Option (List Item)) (zone : String)
    (n : Nat) : List Item :=
  (fetch zone n).getD []

/-- The three `pd.concat` calls of one iteration merge west, then central,
then east (lines 116-129), in that fixed order. -/
def pageItems (fetch : String → Nat → Option (List Item)) (n : Nat) : List Item :=
  zoneItems fetch "west" n ++ zoneItems fetch "central" n ++ zoneItems fetch "east" n

/-- Why the `while True` loop exited: `len(df) == last_run_counter` (line 137,
all vehicles found) or `page_number > 40` (line 103, the hard API limit). -/
inductive TermReason
  | Converged
  | PageCeiling
deriving DecidableEq, Repr

/-- The `while True` loop of `get_all_pages` (lines 101-145), recursing on the
fuel `41 - page_number`: the guard `if page_number > 40: break` at the top of
the loop is exactly `fuel = 0`, since the wrappers below always call this with
`fuel = 41 - page_number` and each iteration increments `page_number`.  One
iteration concatenates the three zones' pages, drops duplicate vins, breaks
with `Converged` when the deduplicated size equals `last_run_counter`, and
otherwise continues with the next page.  Returns the final dataframe, the exit
reason, and the page number at exit. -/
def crawl_go (fetch : String → Nat → Option (List Item)) :
    Nat → List Item → Nat → Nat → List Item × TermReason × Nat
  | 0, df, _, n => (df, .PageCeiling, n)
  | fuel + 1, df, last_run_counter, n =>
    let merged := drop_duplicates_vin (df ++ pageItems fetch n)
    if merged.length = last_run_counter then (merged, .Converged, n)
    else crawl_go fetch fuel merged merged.length (n + 1)

/-- The loop of `get_all_pages` started at an arbitrary state: dataframe so
far, `last_run_counter`, and next `page_number`. -/
def get_all_pages_from (fetch : String → Nat → Option (List Item))
    (df : List Item) (last_run_counter page_number : Nat) :
    List Item × TermReason × Nat :=
  crawl_go fetch (41 - page_number) df last_run_counter page_number

/-- `get_all_pages` (lines 81-147): the loop from its initial state — empty
dataframe, `last_run_counter = 0`, `page_number = 1`. -/
def get_all_pages (fetch : String → Nat → Option (List Item)) :
    List Item × TermReason × Nat :=
  get_all_pages_from fetch [] 0 1

/-- The pages for which the loop body issues fetches (the three `query_toyota`
calls run once per iteration, lines 116-126), mirroring `crawl_go`. -/
def fetched_go (fetch : String → Nat → Option (List Item)) :
    Nat → List Item → Nat → Nat → List Nat
  | 0, _, _, _ => []
  | fuel + 1, df, last_run_counter, n =>
    let merged := drop_duplicates_vin (df ++ pageItems fetch n)
    if merged.length = last_run_counter then [n]
    else n :: fetched_go fetch fuel merged merged.length (n + 1)

/-- The pages fetched by the loop started at the given state. -/
def fetched_pages (fetch : String → Nat → Option (List Item))
    (df : List Item) (last_run_counter page_number : Nat) : List Nat :=
  fetched_go fetch (41 - page_number) df last_run_counter page_number

/-- Whether every iteration the loop actually ran strictly grew the
deduplicated dataframe (i.e. no page converged), mirroring `crawl_go`. -/
def grows_go (fetch : String → Nat → Option (List Item)) :
    Nat → List Item → Nat → Nat → Bool
  | 0, _, _, _ => true
  | fuel + 1, df, last_run_counter, n =>
    let merged := drop_duplicates_vin (df ++ pageItems fetch n)
    if merged.length = last_run_counter then false
    else grows_go fetch fuel merged merged.length (n + 1)

/-- "Every processed page contributed at least one previously-unseen item",
for the loop started at the given state. -/
def always_grows (fetch : String → Nat → Option (List Item))
    (df : List Item) (last_run_counter page_number : Nat) : Bool :=
  grows_go fetch (41 - page_number) df last_run_counter page_number

/-- First item of a dataframe with the given vin (`pandas` keeps exactly this
row on `drop_duplicates(subset=["vin"])`). -/
def findByVin (k : String) (l : List Item) : Option Item :=
  l.find? fun it => it.vin == k

/-! ### The WAF-bypass refresh check (vehicles.py lines 91-111) -/

/-- The mutable state of the refresh logic: the current `headers` bundle
(credential instances numbered by an opaque `Nat`) and `timer_start`, the
time at which it was acquired.  Times are integer seconds on a simulated
clock. -/
structure Guard where
  headers : Nat
  timer_start : Int
deriving DecidableEq, Repr

/-- The check at the top of each loop iteration (lines 106-111):
`elapsed_time = timer() - timer_start; if elapsed_time > 4 * 60:` re-acquire
via `wafbypass.WAFBypass().run()` (modelled by the `acquire` oracle) and reset
`timer_start = timer()`.  Note the strict `>`. -/
def refresh_check (acquire : Int → Nat) (g : Guard) (now : Int) : Guard :=
  if now - g.timer_start > 4 * 60 then ⟨acquire now, now⟩ else g

/-- Run the refresh check at each time of a simulated clock in turn, counting
how many re-acquisitions were triggered. -/
def run_checks (acquire : Int → Nat) (g : Guard) : List Int → Guard × Nat
  | [] => (g, 0)
  | t :: ts =>
    if t - g.timer_start > 4 * 60 then
      let r := run_checks acquire ⟨acquire t, t⟩ ts
      (r.1, r.2 + 1)
    else run_checks acquire g ts

/-! ### The `update_vehicles` configuration guard (vehicles.py lines 150-155) -/

/-- Python falsiness of `MODEL = os.environ.get("MODEL")`: `not MODEL` is true
exactly when the variable is unset (`None`) or the empty string. -/
def modelMissing (model : Option String) : Bool :=
  match model with
  | none => true
  | some s => s == ""

/-- Outcome of entering `update_vehicles`: `sys.exit` with a message before
anything else runs, or the crawl ran and produced a value. -/
inductive UpdateResult (α : Type)
  | configExit (msg : String)
  | ran (a : α)
deriving DecidableEq, Repr

/-- The guard at the top of `update_vehicles` (lines 150-155):
`if not MODEL: sys.exit("Set the MODEL environment variable first")`, and only
past it is the crawl (`get_all_pages`, modelled as a thunk) run. -/
def update_vehicles_start {α : Type} (model : Option String)
    (crawl : Unit → α) : UpdateResult α :=
  if modelMissing model then .configExit "Set the MODEL environment variable first"
  else .ran (crawl ())

/-! ### Lemmas about `drop_duplicates_vin` -/

theorem drop_duplicates_go_not_mem_seen (seen : List String) (l : List Item) :
    ∀ v ∈ (drop_duplicates_go seen l).map Item.vin, v ∉ seen := by
  induction l generalizing seen with
  | nil => simp [drop_duplicates_go]
  | cons x xs ih =>
    by_cases hx : x.vin ∈ seen
    · simpa [drop_duplicates_go, hx] using ih seen
    · intro v hv
      simp only [drop_duplicates_go, if_neg hx, List.map_cons, List.mem_cons] at hv
      rcases hv with rfl | hv
      · exact hx
      · have := ih (x.vin :: seen) v hv
        exact fun hs => this (List.mem_cons_of_mem _ hs)

theorem nodup_vins_drop_duplicates_go (seen : List String) (l : List Item) :
    ((drop_duplicates_go seen l).map Item.vin).Nodup := by
  induction l generalizing seen with
  | nil => simp [drop_duplicates_go]
  | cons x xs ih =>
    by_cases hx : x.vin ∈ seen
    · simpa [drop_duplicates_go, hx] using ih seen
    · simp only [drop_duplicates_go, if_neg hx, List.map_cons, List.nodup_cons]
      refine ⟨fun hmem => ?_, ih (x.vin :: seen)⟩
      exact drop_duplicates_go_not_mem_seen (x.vin :: seen) xs x.vin hmem
        (List.mem_cons_self _ _)

theorem nodup_vins_drop_duplicates_vin (l : List Item) :
    ((drop_duplicates_vin l).map Item.vin).Nodup :=
  nodup_vins_drop_duplicates_go [] l

theorem drop_duplicates_go_append (df e : List Item) :
    ∀ seen : List String, (df.map Item.vin).Nodup →
    (∀ v ∈ df.map Item.vin, v ∉ seen) →
    drop_duplicates_go seen (df ++ e) =
      df ++ drop_duplicates_go ((df.map Item.vin).reverse ++ seen) e := by
  induction df with
  | nil => intro seen _ _; simp
  | cons x df ih =>
    intro seen hnd hdisj
    have hx : x.vin ∉ seen := hdisj x.vin (by simp)
    simp only [List.cons_append, drop_duplicates_go, if_neg hx, List.append_eq]
    have hnd' : (df.map Item.vin).Nodup := (List.nodup_cons.1 (by simpa using hnd)).2
    have hxdf : x.vin ∉ df.map Item.vin := (List.nodup_cons.1 (by simpa using hnd)).1
    rw [ih (x.vin :: seen) hnd' ?_]
    · simp [List.append_assoc]
    · intro v hv
      simp only [List.mem_cons]
      rintro (rfl | hvs)
      · exact hxdf hv
      · exact hdisj v (List.mem_cons_of_mem _ hv) hvs

theorem drop_duplicates_go_absorb (e : List Item) :
    ∀ seen : List String, (∀ it ∈ e, it.vin ∈ seen) →
    drop_duplicates_go seen e = [] := by
  induction e with
  | nil => intro seen _; rfl
  | cons x xs ih =>
    intro seen h
    have hx : x.vin ∈ seen := h x (List.mem_cons_self _ _)
    simp only [drop_duplicates_go, if_pos hx]
    exact ih seen fun it hit => h it (List.mem_cons_of_mem _ hit)

/-- Merging a page whose vins are all already present changes nothing:
`drop_duplicates` throws every new row away and keeps `df` as it was. -/
theorem drop_duplicates_vin_no_new (df e : List Item)
    (hnd : (df.map Item.vin).Nodup)
    (h : ∀ it ∈ e, it.vin ∈ df.map Item.vin) :
    drop_duplicates_vin (df ++ e) = df := by
  unfold drop_duplicates_vin
  rw [drop_duplicates_go_append df e [] hnd (by simp)]
  rw [drop_duplicates_go_absorb e _ ?_]
  · simp
  · intro it hit
    simpa [List.mem_reverse] using h it hit

/-- An already-deduplicated dataframe survives a merge as a prefix: new rows
are only ever appended. -/
theorem isPrefix_drop_duplicates_vin (df e : List Item)
    (hnd : (df.map Item.vin).Nodup) :
    df <+: drop_duplicates_vin (df ++ e) := by
  unfold drop_duplicates_vin
  rw [drop_duplicates_go_append df e [] hnd (by simp)]
  exact ⟨_, rfl⟩

theorem find?_drop_duplicates_go (k : String) (l : List Item) :
    ∀ seen : List String, k ∉ seen →
    (drop_duplicates_go seen l).find? (fun it => it.vin == k) =
      l.find? (fun it => it.vin == k) := by
  induction l with
  | nil => intro seen _; rfl
  | cons x xs ih =>
    intro seen hk
    by_cases hx : x.vin ∈ seen
    · have hne : (x.vin == k) = false := by
        simp only [beq_eq_false_iff_ne, ne_eq]
        rintro rfl; exact hk hx
      simp only [drop_duplicates_go, if_pos hx, List.find?, hne]
      exact ih seen hk
    · by_cases hxk : x.vin = k
      · simp only [drop_duplicates_go, if_neg hx]
        have hbt : (x.vin == k) = true := by simpa using hxk
        simp [List.find?, hbt]
      · have hne : (x.vin == k) = false := by simpa using hxk
        simp only [drop_duplicates_go, if_neg hx, List.find?, hne]
        refine ih (x.vin :: seen) ?_
        simp only [List.mem_cons, not_or]
        exact ⟨fun h => hxk h.symm, hk⟩

/-- First occurrence wins: looking a vin up in the deduplicated dataframe
yields exactly the first row with that vin in merge order. -/
theorem findByVin_drop_duplicates_vin (k : String) (l : List Item) :
    findByVin k (drop_duplicates_vin l) = findByVin k l :=
  find?_drop_duplicates_go k l [] (by simp)

theorem find?_append_of_none {la lb : List Item} {p : Item → Bool}
    (h : la.find? p = none) : (la ++ lb).find? p = lb.find? p := by
  induction la with
  | nil => rfl
  | cons x xs ih =>
    cases hx : p x with
    | true => simp [List.find?, hx] at h
    | false =>
      simp only [List.find?, hx] at h
      simpa [List.find?, hx] using ih h

theorem find?_append_of_some {la lb : List Item} {p : Item → Bool} {x : Item}
    (h : la.find? p = some x) : (la ++ lb).find? p = some x := by
  induction la with
  | nil => simp [List.find?] at h
  | cons a xs ih =>
    cases ha : p a with
    | true =>
      simp only [List.find?, ha] at h
      simpa [List.find?, ha] using h
    | false =>
      simp only [List.find?, ha] at h
      simpa [List.find?, ha] using ih h

theorem find?_of_isPrefix {la lb : List Item} {p : Item → Bool} {x : Item}
    (hpre : la <+: lb) (h : la.find? p = some x) : lb.find? p = some x := by
  obtain ⟨t, rfl⟩ := hpre
  exact find?_append_of_some h

/-! ### Lemmas about the crawl loop -/

theorem crawl_go_nodup (fetch : String → Nat → Option (List Item)) (fuel : Nat) :
    ∀ (df : List Item) (lr n : Nat), (df.map Item.vin).Nodup →
    (((crawl_go fetch fuel df lr n).1).map Item.vin).Nodup := by
  induction fuel with
  | zero => intro df lr n hd; exact hd
  | succ fuel ih =>
    intro df lr n hd
    simp only [crawl_go]
    by_cases hc : (drop_duplicates_vin (df ++ pageItems fetch n)).length = lr
    · simpa [hc] using nodup_vins_drop_duplicates_vin (df ++ pageItems fetch n)
    · simpa [hc] using ih _ _ (n + 1) (nodup_vins_drop_duplicates_vin _)

theorem crawl_go_isPrefix (fetch : String → Nat → Option (List Item)) (fuel : Nat) :
    ∀ (df : List Item) (lr n : Nat), (df.map Item.vin).Nodup →
    df <+: (crawl_go fetch fuel df lr n).1 := by
  induction fuel with
  | zero => intro df lr n _; exact List.prefix_rfl
  | succ fuel ih =>
    intro df lr n hd
    simp only [crawl_go]
    by_cases hc : (drop_duplicates_vin (df ++ pageItems fetch n)).length = lr
    · simpa [hc] using isPrefix_drop_duplicates_vin df (pageItems fetch n) hd
    · simp only [hc, if_false]
      exact (isPrefix_drop_duplicates_vin df (pageItems fetch n) hd).trans
        (ih _ _ (n + 1) (nodup_vins_drop_duplicates_vin _))

theorem fetched_go_mem_lt (fetch : String → Nat → Option (List Item)) (fuel : Nat) :
    ∀ (df : List Item) (lr n p : Nat), p ∈ fetched_go fetch fuel df lr n →
    p < n + fuel := by
  induction fuel with
  | zero => intro df lr n p hp; simp [fetched_go] at hp
  | succ fuel ih =>
    intro df lr n p hp
    simp only [fetched_go] at hp
    by_cases hc : (drop_duplicates_vin (df ++ pageItems fetch n)).length = lr
    · simp only [hc, if_true, List.mem_singleton] at hp
      omega
    · simp only [hc, if_false, List.mem_cons] at hp
      rcases hp with rfl | hp
      · omega
      · have := ih _ _ (n + 1) p hp
        omega

theorem grows_go_ceiling (fetch : String → Nat → Option (List Item)) (fuel : Nat) :
    ∀ (df : List Item) (lr n : Nat), grows_go fetch fuel df lr n = true →
    (crawl_go fetch fuel df lr n).2.1 = TermReason.PageCeiling ∧
    fetched_go fetch fuel df lr n = List.range' n fuel := by
  induction fuel with
  | zero => intro df lr n _; exact ⟨rfl, rfl⟩
  | succ fuel ih =>
    intro df lr n h
    by_cases hc : (drop_duplicates_vin (df ++ pageItems fetch n)).length = lr
    · simp [grows_go, hc] at h
    · have h' : grows_go fetch fuel
          (drop_duplicates_vin (df ++ pageItems fetch n))
          (drop_duplicates_vin (df ++ pageItems fetch n)).length (n + 1) = true := by
        simpa [grows_go, hc] using h
      obtain ⟨h1, h2⟩ := ih _ _ (n + 1) h'
      constructor
      · simpa [crawl_go, hc] using h1
      · simp only [fetched_go, hc, if_false]
        rw [h2, List.range'_succ]

/-! ### Claim theorems: the crawl loop -/

/-- C1: if, at page `n` (with `n ≤ 40` so the controller is still running and
the loop-entry invariant `last_run_counter = len(df)` with `df` deduplicated
holds), every zone's fetch returns only items whose vins are already in the
accumulated dataframe, then the loop terminates with `Converged` at page `n`,
fetches exactly page `n`, and never issues a fetch for page `n + 1`. -/
theorem C1_convergence (fetch : String → Nat → Option (List Item))
    (df : List Item) (n : Nat) (hn : n ≤ 40) (hd : (df.map Item.vin).Nodup)
    (hk : ∀ z ∈ ["west", "central", "east"], ∀ it ∈ zoneItems fetch z n,
      it.vin ∈ df.map Item.vin) :
    get_all_pages_from fetch df df.length n = (df, TermReason.Converged, n) ∧
    fetched_pages fetch df df.length n = [n] ∧
    n + 1 ∉ fetched_pages fetch df df.length n := by
  have hall : ∀ it ∈ pageItems fetch n, it.vin ∈ df.map Item.vin := by
    intro it hit
    simp only [pageItems, List.mem_append] at hit
    rcases hit with (h | h) | h
    · exact hk "west" (by simp) it h
    · exact hk "central" (by simp) it h
    · exact hk "east" (by simp) it h
  have hmerge : drop_duplicates_vin (df ++ pageItems fetch n) = df :=
    drop_duplicates_vin_no_new df _ hd hall
  obtain ⟨k, hk41⟩ : ∃ k, 41 - n = k + 1 := ⟨40 - n, by omega⟩
  unfold get_all_pages_from fetched_pages
  rw [hk41]
  refine ⟨?_, ?_, ?_⟩
  · simp [crawl_go, hmerge]
  · simp [fetched_go, hmerge]
  · simp [fetched_go, hmerge]

theorem C1_convergence_witness :
    get_all_pages_from (fun _ _ => some [Item.mk "V1" "p"]) [Item.mk "V1" "p"] 1 1 =
      ([Item.mk "V1" "p"], TermReason.Converged, 1) ∧
    fetched_pages (fun _ _ => some [Item.mk "V1" "p"]) [Item.mk "V1" "p"] 1 1 = [1] ∧
    1 + 1 ∉ fetched_pages (fun _ _ => some [Item.mk "V1" "p"]) [Item.mk "V1" "p"] 1 1 :=
  C1_convergence (fun _ _ => some [Item.mk "V1" "p"]) [Item.mk "V1" "p"] 1
    (by decide) (by decide) (by decide)

/-- C2: (a) started from any state, the loop never issues a fetch for a page
number greater than 40; (b) a run from the initial state in which every
processed page contributed at least one previously-unseen item exits with
`PageCeiling`, having fetched exactly pages 1 through 40. -/
theorem C2_page_ceiling (fetch : String → Nat → Option (List Item)) :
    (∀ df lr n p, p ∈ fetched_pages fetch df lr n → p ≤ 40) ∧
    (always_grows fetch [] 0 1 = true →
      (get_all_pages fetch).2.1 = TermReason.PageCeiling ∧
      fetched_pages fetch [] 0 1 = List.range' 1 40) := by
  constructor
  · intro df lr n p hp
    have hp' : p ∈ fetched_go fetch (41 - n) df lr n := hp
    by_cases h41 : n ≤ 41
    · have := fetched_go_mem_lt fetch (41 - n) df lr n p hp'
      omega
    · exfalso
      have hz : 41 - n = 0 := by omega
      rw [hz] at hp'
      simp [fetched_go] at hp'
  · intro h
    exact grows_go_ceiling fetch 40 [] 0 1 h

theorem C2_page_ceiling_witness :
    (40 : Nat) ≤ 40 ∧
    (get_all_pages (fun z n => some [Item.mk (toString n) z])).2.1 =
      TermReason.PageCeiling ∧
    fetched_pages (fun z n => some [Item.mk (toString n) z]) [] 0 1 =
      List.range' 1 40 := by
  refine ⟨(C2_page_ceiling (fun z n => some [Item.mk (toString n) z])).1
    [] 0 1 40 (by decide), ?_⟩
  exact (C2_page_ceiling (fun z n => some [Item.mk (toString n) z])).2 (by decide)

/-- C5: at the end of every page iteration the freshly deduplicated dataframe
has no two rows with the same vin, and hence (from any loop state whose
dataframe already satisfies the invariant, in particular the initial empty
one) the final dataframe has no two rows with the same vin. -/
theorem C5_dedup_invariant (fetch : String → Nat → Option (List Item))
    (df : List Item) (lr n : Nat) (hd : (df.map Item.vin).Nodup) :
    ((drop_duplicates_vin (df ++ pageItems fetch n)).map Item.vin).Nodup ∧
    (((get_all_pages_from fetch df lr n).1).map Item.vin).Nodup :=
  ⟨nodup_vins_drop_duplicates_vin _, crawl_go_nodup fetch (41 - n) df lr n hd⟩

theorem C5_dedup_invariant_witness :
    ((drop_duplicates_vin
      ([] ++ pageItems (fun _ _ => some [Item.mk "A" "1", Item.mk "A" "2"]) 1)).map
        Item.vin).Nodup ∧
    (((get_all_pages_from (fun _ _ => some [Item.mk "A" "1", Item.mk "A" "2"])
      [] 0 1).1).map Item.vin).Nodup :=
  C5_dedup_invariant (fun _ _ => some [Item.mk "A" "1", Item.mk "A" "2"]) [] 0 1
    (by decide)

/-- C6: when the accumulated dataframe does not yet contain vin `k` and the
"west" zone's page contains a row `w` with that vin (its first such row), the
row retained after the merge-and-dedup of the page is exactly `w` — the west
payload beats the "central" and "east" ones, merged later in the fixed zone
order; and in general dedup retains the first-merged occurrence of every vin. -/
theorem C6_first_seen_wins (fetch : String → Nat → Option (List Item))
    (df : List Item) (n : Nat) (k : String) (w : Item)
    (hnotin : k ∉ df.map Item.vin)
    (hw : findByVin k (zoneItems fetch "west" n) = some w) :
    findByVin k (drop_duplicates_vin (df ++ pageItems fetch n)) = some w ∧
    findByVin k (drop_duplicates_vin (df ++ pageItems fetch n)) =
      findByVin k (df ++ pageItems fetch n) := by
  have h2 := findByVin_drop_duplicates_vin k (df ++ pageItems fetch n)
  have hdf : findByVin k df = none := by
    unfold findByVin
    rw [List.find?_eq_none]
    intro it hit hbeq
    refine hnotin ?_
    have hv : it.vin = k := by simpa using hbeq
    exact hv ▸ List.mem_map_of_mem Item.vin hit
  have hcat : findByVin k (df ++ pageItems fetch n) = some w := by
    unfold findByVin at hdf hw ⊢
    rw [find?_append_of_none hdf]
    unfold pageItems
    rw [List.append_assoc]
    exact find?_append_of_some hw
  exact ⟨h2.trans hcat, h2⟩

theorem C6_first_seen_wins_witness :
    findByVin "K" (drop_duplicates_vin ([] ++ pageItems
      (fun z _ => if z = "west" then some [Item.mk "K" "west"]
        else if z = "central" then some [Item.mk "K" "central"] else none) 1)) =
      some (Item.mk "K" "west") ∧
    findByVin "K" (drop_duplicates_vin ([] ++ pageItems
      (fun z _ => if z = "west" then some [Item.mk "K" "west"]
        else if z = "central" then some [Item.mk "K" "central"] else none) 1)) =
      findByVin "K" ([] ++ pageItems
      (fun z _ => if z = "west" then some [Item.mk "K" "west"]
        else if z = "central" then some [Item.mk "K" "central"] else none) 1) :=
  C6_first_seen_wins
    (fun z _ => if z = "west" then some [Item.mk "K" "west"]
      else if z = "central" then some [Item.mk "K" "central"] else none)
    [] 1 "K" (Item.mk "K" "west") (by decide) (by decide)

/-- C9: from any loop state whose dataframe satisfies the invariant, the
dataframe at that point is a prefix of the final dataframe — so its size
never decreases and every vin already present keeps its first-seen row in
every later iteration (no eviction, no overwriting). -/
theorem C9_monotone (fetch : String → Nat → Option (List Item))
    (df : List Item) (lr n : Nat) (hd : (df.map Item.vin).Nodup) :
    df <+: (get_all_pages_from fetch df lr n).1 ∧
    df.length ≤ (get_all_pages_from fetch df lr n).1.length ∧
    ∀ k x, findByVin k df = some x →
      findByVin k (get_all_pages_from fetch df lr n).1 = some x := by
  have hp := crawl_go_isPrefix fetch (41 - n) df lr n hd
  exact ⟨hp, hp.length_le, fun k x hf => find?_of_isPrefix hp hf⟩

theorem C9_monotone_witness :
    [Item.mk "A" "orig"] <+: (get_all_pages_from
      (fun _ m => if m = 1 then some [Item.mk "A" "dup", Item.mk "B" "new"] else none)
      [Item.mk "A" "orig"] 1 1).1 ∧
    1 ≤ (get_all_pages_from
      (fun _ m => if m = 1 then some [Item.mk "A" "dup", Item.mk "B" "new"] else none)
      [Item.mk "A" "orig"] 1 1).1.length ∧
    findByVin "A" (get_all_pages_from
      (fun _ m => if m = 1 then some [Item.mk "A" "dup", Item.mk "B" "new"] else none)
      [Item.mk "A" "orig"] 1 1).1 = some (Item.mk "A" "orig") := by
  have h := C9_monotone
    (fun _ m => if m = 1 then some [Item.mk "A" "dup", Item.mk "B" "new"] else none)
    [Item.mk "A" "orig"] 1 1 (by decide)
  exact ⟨h.1, h.2.1, h.2.2 "A" (Item.mk "A" "orig") (by decide)⟩

/-! ### Lemmas about template substitution -/

theorem lit_mem_replaceChunk (l : List Chunk) (p : Chunk) (s : String)
    (hp : p ∈ l) : Chunk.lit s ∈ replaceChunk l p s := by
  unfold replaceChunk
  exact List.mem_map.2 ⟨p, hp, by simp⟩

theorem mem_replaceChunk_of_mem {l : List Chunk} {c : Chunk} (p : Chunk)
    (s : String) (hc : c ∈ l) (hne : c ≠ p) : c ∈ replaceChunk l p s := by
  unfold replaceChunk
  exact List.mem_map.2 ⟨c, hc, by simp [if_neg hne]⟩

theorem eq_or_mem_of_mem_replaceChunk {l : List Chunk} {c p : Chunk}
    {s : String} (hc : c ∈ replaceChunk l p s) :
    c = Chunk.lit s ∨ (c ∈ l ∧ c ≠ p) := by
  unfold replaceChunk at hc
  obtain ⟨a, ha, hfa⟩ := List.mem_map.1 hc
  by_cases hap : a = p
  · rw [if_pos hap] at hfa
    exact Or.inl hfa.symm
  · rw [if_neg hap] at hfa
    exact Or.inr ⟨hfa ▸ ha, hfa ▸ hap⟩

theorem not_mem_replaceChunk_self (l : List Chunk) (p : Chunk) (s : String)
    (hps : p ≠ Chunk.lit s) : p ∉ replaceChunk l p s := by
  intro h
  rcases eq_or_mem_of_mem_replaceChunk h with h | ⟨_, hne⟩
  · exact hps h
  · exact hne rfl

theorem not_mem_replaceChunk {l : List Chunk} {c : Chunk} (p : Chunk)
    (s : String) (hcl : c ∉ l) (hcs : c ≠ Chunk.lit s) :
    c ∉ replaceChunk l p s := by
  intro h
  rcases eq_or_mem_of_mem_replaceChunk h with h | ⟨hmem, _⟩
  · exact hcs h
  · exact hcl hmem

/-- Two page renderings of one base text agree except where the base text had
the page-number placeholder. -/
theorem withPage_zip (q : List Chunk) (m n : Nat) :
    ∀ c1 c2, (c1, c2) ∈ (withPage m q).zip (withPage n q) →
      c1 = c2 ∨ (c1 = Chunk.lit (toString m) ∧ c2 = Chunk.lit (toString n)) := by
  induction q with
  | nil =>
    intro c1 c2 h
    simp [withPage, replaceChunk] at h
  | cons c q ih =>
    intro c1 c2 h
    simp only [withPage, replaceChunk, List.map_cons, List.zip_cons_cons,
      List.mem_cons] at h
    rcases h with h | h
    · rw [Prod.mk.injEq] at h
      obtain ⟨h1, h2⟩ := h
      by_cases hc : c = Chunk.pagenumber
      · rw [if_pos hc] at h1 h2
        exact Or.inr ⟨h1, h2⟩
      · rw [if_neg hc] at h1 h2
        exact Or.inl (h1.trans h2.symm)
    · exact ih c1 c2 (by simpa [withPage, replaceChunk] using h)

/-! ### Claim theorems: refresh check, response classification, config guard -/

/-- C3 counterexample: with the credential acquired at time 0, the check run
at exactly 240s of elapsed time performs no re-acquisition at all (the code
refreshes only when `elapsed_time > 4 * 60` holds strictly), refuting the
claim that the first check at or after 240s triggers exactly one
re-acquisition. -/
theorem C3_refresh_counterexample :
    refresh_check (fun _ => 1) (Guard.mk 0 0) 240 = Guard.mk 0 0 ∧
    (run_checks (fun _ => 1) (Guard.mk 0 0) [240]).2 = 0 ∧
    (240 : Int) - 0 ≥ 240 := by
  refine ⟨?_, ?_, by decide⟩
  · rw [refresh_check, if_neg (by decide)]
  · rw [run_checks, if_neg (by decide)]
    rfl

/-- C3 amended: the check returns the same credential unchanged for every
call whose elapsed time is at most 240s (in particular strictly within 240s),
and triggers exactly one re-acquisition — resetting the acquisition timestamp
to now — the first time it runs strictly after 240s of elapsed time. -/
theorem C3_refresh_amended (acquire : Int → Nat) (g : Guard) (ts : List Int)
    (v : Int) (hts : ∀ t ∈ ts, t - g.timer_start ≤ 240)
    (hv : v - g.timer_start > 240) :
    run_checks acquire g ts = (g, 0) ∧
    run_checks acquire g (ts ++ [v]) = (Guard.mk (acquire v) v, 1) := by
  induction ts with
  | nil =>
    refine ⟨rfl, ?_⟩
    simp only [List.nil_append, run_checks]
    rw [if_pos (by omega)]
  | cons t ts ih =>
    have ht : ¬ (t - g.timer_start > 4 * 60) := by
      have := hts t (List.mem_cons_self _ _)
      omega
    obtain ⟨ih1, ih2⟩ := ih fun u hu => hts u (List.mem_cons_of_mem _ hu)
    constructor
    · rw [run_checks, if_neg ht]
      exact ih1
    · rw [List.cons_append, run_checks, if_neg ht]
      exact ih2

theorem C3_refresh_amended_witness :
    run_checks (fun _ => 5) (Guard.mk 0 0) [100, 240] = (Guard.mk 0 0, 0) ∧
    run_checks (fun _ => 5) (Guard.mk 0 0) ([100, 240] ++ [241]) =
      (Guard.mk 5 241, 1) :=
  C3_refresh_amended (fun _ => 5) (Guard.mk 0 0) [100, 240] 241
    (by decide) (by decide)

/-- C4 counterexample: a response whose transport succeeded and whose body
parsed, but whose JSON object lacks the "data" key (as a GraphQL error
response does), makes `resp.json()["data"]` raise a `KeyError` that the
`except JSONDecodeError` clause does not catch — an exception crosses the
fetch boundary instead of resolving to the no-results marker. -/
theorem C4_no_raise_counterexample :
    query_toyota (RespBody.decoded (PyVal.vdict [("errors", PyVal.vnull)])) =
      Except.error PyError.keyError := rfl

/-- C4 amended: the no-exception guarantee holds exactly for the failure
modes the code absorbs — an undecodable body resolves to None, and whenever
the `["data"]["locateVehiclesByZip"]` extraction succeeds, a falsy result or
a dict result never raises: falsy, or a dict missing "vehicleSummary",
resolves to None, and a truthy dict with "vehicleSummary" is returned.  (A
body whose extraction chain fails — a missing "data" or "locateVehiclesByZip"
key, or a non-dict at either level — raises KeyError/TypeError to the
caller.) -/
theorem C4_no_raise_amended (v d r : PyVal)
    (hd : pySubscript v "data" = Except.ok d)
    (hr : pySubscript d "locateVehiclesByZip" = Except.ok r) :
    query_toyota RespBody.undecodable = Except.ok none ∧
    (truthy r = false → query_toyota (RespBody.decoded v) = Except.ok none) ∧
    (∀ fs, r = PyVal.vdict fs → fs.lookup "vehicleSummary" = none →
      query_toyota (RespBody.decoded v) = Except.ok none) ∧
    (∀ fs, r = PyVal.vdict fs → truthy r = true →
      (fs.lookup "vehicleSummary").isSome = true →
      query_toyota (RespBody.decoded v) = Except.ok (some r)) := by
  refine ⟨rfl, ?_, ?_, ?_⟩
  · intro hf
    simp [query_toyota, hd, hr, hf]
  · rintro fs rfl hl
    simp only [query_toyota, hd, hr, pyContains, hl, Option.isSome_none]
    cases truthy (PyVal.vdict fs) <;> simp
  · rintro fs rfl htr hsome
    simp [query_toyota, hd, hr, htr, pyContains, hsome]

theorem C4_no_raise_amended_witness :
    query_toyota (RespBody.decoded (PyVal.vdict
      [("data", PyVal.vdict [("locateVehiclesByZip", PyVal.vnull)])])) =
      Except.ok none := by
  have h := C4_no_raise_amended
    (PyVal.vdict [("data", PyVal.vdict [("locateVehiclesByZip", PyVal.vnull)])])
    (PyVal.vdict [("locateVehiclesByZip", PyVal.vnull)]) PyVal.vnull rfl rfl
  exact h.2.1 rfl

/-- C7: with the MODEL environment variable unset or empty (Python-falsy),
`update_vehicles` exits immediately with the configuration error and the
crawl thunk is never run; with a non-empty MODEL the guard passes, the crawl
runs, and rendering the query succeeds for every configured zone. -/
theorem C7_config_guard {α : Type} (model : Option String) (crawl : Unit → α)
    (template : List Chunk) (dist : Nat) (lead : String) :
    (modelMissing model = true →
      update_vehicles_start model crawl =
        UpdateResult.configExit "Set the MODEL environment variable first") ∧
    (∀ m, model = some m → m ≠ "" →
      update_vehicles_start model crawl = UpdateResult.ran (crawl ()) ∧
      ∀ z ∈ ["west", "central", "east"],
        (get_vehicles_query_body template (some m) dist lead z).isOk = true) := by
  constructor
  · intro h
    simp [update_vehicles_start, h]
  · rintro m rfl hm
    have hmm : modelMissing (some m) = false := by
      simpa [modelMissing] using hm
    refine ⟨by simp [update_vehicles_start, hmm], ?_⟩
    intro z hz
    simp only [List.mem_cons, List.mem_singleton, List.not_mem_nil, or_false] at hz
    rcases hz with rfl | rfl | rfl <;> rfl

theorem C7_config_guard_witness :
    update_vehicles_start (some "") (fun _ => (42 : Nat)) =
      UpdateResult.configExit "Set the MODEL environment variable first" ∧
    update_vehicles_start (some "RAV4") (fun _ => (42 : Nat)) =
      UpdateResult.ran 42 ∧
    (get_vehicles_query_body [Chunk.zipcode] (some "RAV4") 0 "u" "west").isOk =
      true := by
  refine ⟨(C7_config_guard (some "") (fun _ => (42 : Nat)) [] 0 "u").1
    (by decide), ?_, ?_⟩
  · exact ((C7_config_guard (some "RAV4") (fun _ => (42 : Nat))
      [Chunk.zipcode] 0 "u").2 "RAV4" rfl (by decide)).1
  · exact ((C7_config_guard (some "RAV4") (fun _ => (42 : Nat))
      [Chunk.zipcode] 0 "u").2 "RAV4" rfl (by decide)).2 "west" (by simp)

/-- C8: rendering the "west" zone (anchor code 84101) with target identifier
"RAV4" — for any template carrying the anchor and target placeholders, and
whatever values the randomized distance and the correlation identifier take —
produces query text containing the literals "84101" and "RAV4", with no
anchor, target, distance, or correlation placeholder remaining, while the
page-number placeholder (if present) survives unsubstituted. -/
theorem C8_template_rendering (template : List Chunk) (dist : Nat)
    (lead : String) (q : List Chunk)
    (hz : Chunk.zipcode ∈ template) (hm : Chunk.modelcode ∈ template)
    (hq : get_vehicles_query_body template (some "RAV4") dist lead "west" =
      Except.ok q) :
    Chunk.lit "84101" ∈ q ∧ Chunk.lit "RAV4" ∈ q ∧
    Chunk.zipcode ∉ q ∧ Chunk.modelcode ∉ q ∧
    Chunk.distancemiles ∉ q ∧ Chunk.leadiduuid ∉ q ∧
    (Chunk.pagenumber ∈ template → Chunk.pagenumber ∈ q) := by
  have hrfl : get_vehicles_query_body template (some "RAV4") dist lead "west" =
      Except.ok (replaceChunk (replaceChunk (replaceChunk (replaceChunk template
        Chunk.zipcode "84101") Chunk.modelcode "RAV4") Chunk.distancemiles
        (toString (5823 + dist))) Chunk.leadiduuid lead) := rfl
  rw [hrfl] at hq
  injection hq with hq
  subst hq
  refine ⟨?_, ?_, ?_, ?_, ?_, ?_, ?_⟩
  · exact mem_replaceChunk_of_mem _ _ (mem_replaceChunk_of_mem _ _
      (mem_replaceChunk_of_mem _ _ (lit_mem_replaceChunk template _ _ hz)
        (by simp)) (by simp)) (by simp)
  · exact mem_replaceChunk_of_mem _ _ (mem_replaceChunk_of_mem _ _
      (lit_mem_replaceChunk _ _ _ (mem_replaceChunk_of_mem _ _ hm (by simp)))
        (by simp)) (by simp)
  · exact not_mem_replaceChunk _ _ (not_mem_replaceChunk _ _
      (not_mem_replaceChunk _ _ (not_mem_replaceChunk_self template _ _
        (by simp)) (by simp)) (by simp)) (by simp)
  · exact not_mem_replaceChunk _ _ (not_mem_replaceChunk _ _
      (not_mem_replaceChunk_self _ _ _ (by simp)) (by simp)) (by simp)
  · exact not_mem_replaceChunk _ _ (not_mem_replaceChunk_self _ _ _ (by simp))
      (by simp)
  · exact not_mem_replaceChunk_self _ _ _ (by simp)
  · intro hp
    exact mem_replaceChunk_of_mem _ _ (mem_replaceChunk_of_mem _ _
      (mem_replaceChunk_of_mem _ _ (mem_replaceChunk_of_mem _ _ hp (by simp))
        (by simp)) (by simp)) (by simp)

theorem C8_template_rendering_witness :
    Chunk.lit "84101" ∈ [Chunk.lit "query", Chunk.lit "84101", Chunk.lit "RAV4",
      Chunk.lit "5823", Chunk.lit "LEAD", Chunk.pagenumber] ∧
    Chunk.lit "RAV4" ∈ [Chunk.lit "query", Chunk.lit "84101", Chunk.lit "RAV4",
      Chunk.lit "5823", Chunk.lit "LEAD", Chunk.pagenumber] ∧
    Chunk.zipcode ∉ [Chunk.lit "query", Chunk.lit "84101", Chunk.lit "RAV4",
      Chunk.lit "5823", Chunk.lit "LEAD", Chunk.pagenumber] ∧
    Chunk.modelcode ∉ [Chunk.lit "query", Chunk.lit "84101", Chunk.lit "RAV4",
      Chunk.lit "5823", Chunk.lit "LEAD", Chunk.pagenumber] ∧
    Chunk.distancemiles ∉ [Chunk.lit "query", Chunk.lit "84101", Chunk.lit "RAV4",
      Chunk.lit "5823", Chunk.lit "LEAD", Chunk.pagenumber] ∧
    Chunk.leadiduuid ∉ [Chunk.lit "query", Chunk.lit "84101", Chunk.lit "RAV4",
      Chunk.lit "5823", Chunk.lit "LEAD", Chunk.pagenumber] ∧
    (Chunk.pagenumber ∈ [Chunk.lit "query", Chunk.zipcode, Chunk.modelcode,
      Chunk.distancemiles, Chunk.leadiduuid, Chunk.pagenumber] →
      Chunk.pagenumber ∈ [Chunk.lit "query", Chunk.lit "84101", Chunk.lit "RAV4",
        Chunk.lit "5823", Chunk.lit "LEAD", Chunk.pagenumber]) :=
  C8_template_rendering [Chunk.lit "query", Chunk.zipcode, Chunk.modelcode,
    Chunk.distancemiles, Chunk.leadiduuid, Chunk.pagenumber] 0 "LEAD"
    [Chunk.lit "query", Chunk.lit "84101", Chunk.lit "RAV4",
      Chunk.lit "5823", Chunk.lit "LEAD", Chunk.pagenumber]
    (by decide) (by decide) (by rfl)

/-- C10: once a zone's query has been rendered successfully, every repeated
render call for that zone returns the identical cached text and leaves the
cache unchanged, whatever fresh randomness (`dist2`, `lead2`) the repeated
call would have drawn — the distance and correlation values are drawn once
per zone, not once per call; and the per-page page-number substitution is a
pure function of that one cached text, so the queries issued for pages `m`
and `n` of the zone agree except at the page-number positions. -/
theorem C10_render_cached (cache st2 : List (String × List Chunk))
    (template : List Chunk) (model : Option String) (dist dist2 : Nat)
    (lead lead2 : String) (zone : String) (q : List Chunk) (m n : Nat)
    (h1 : get_vehicles_query_cached cache template model dist lead zone =
      (Except.ok q, st2)) :
    get_vehicles_query_cached st2 template model dist2 lead2 zone =
      (Except.ok q, st2) ∧
    ∀ c1 c2, (c1, c2) ∈ (withPage m q).zip (withPage n q) →
      c1 = c2 ∨ (c1 = Chunk.lit (toString m) ∧ c2 = Chunk.lit (toString n)) := by
  refine ⟨?_, withPage_zip q m n⟩
  have hlook : st2.lookup zone = some q := by
    unfold get_vehicles_query_cached at h1
    cases hc : cache.lookup zone with
    | some qq =>
      rw [hc] at h1
      rw [Prod.mk.injEq] at h1
      obtain ⟨hA, hB⟩ := h1
      injection hA with hA
      rw [← hB, hc, hA]
    | none =>
      rw [hc] at h1
      cases hb : get_vehicles_query_body template model dist lead zone with
      | error e =>
        rw [hb] at h1
        rw [Prod.mk.injEq] at h1
        exact absurd h1.1 (by simp)
      | ok qq =>
        rw [hb] at h1
        rw [Prod.mk.injEq] at h1
        obtain ⟨hA, hB⟩ := h1
        injection hA with hA
        rw [← hB, hA]
        simp [List.lookup]
  unfold get_vehicles_query_cached
  rw [hlook]

theorem C10_render_cached_witness :
    get_vehicles_query_cached [("west", [Chunk.pagenumber, Chunk.lit "x"])]
      [Chunk.pagenumber, Chunk.lit "x"] (some "M") 5 "u2" "west" =
      (Except.ok [Chunk.pagenumber, Chunk.lit "x"],
        [("west", [Chunk.pagenumber, Chunk.lit "x"])]) ∧
    (Chunk.lit "3" = Chunk.lit "7" ∨
      (Chunk.lit "3" = Chunk.lit (toString 3) ∧
       Chunk.lit "7" = Chunk.lit (toString 7))) := by
  have h := C10_render_cached [] [("west", [Chunk.pagenumber, Chunk.lit "x"])]
    [Chunk.pagenumber, Chunk.lit "x"] (some "M") 0 5 "u" "u2" "west"
    [Chunk.pagenumber, Chunk.lit "x"] 3 7 (by rfl)
  exact ⟨h.1, h.2 (Chunk.lit "3") (Chunk.lit "7") (by decide)⟩

end Yotagrabber
